import Mathlib

/-!
Shallow embedding of the ircon MySQL storage engine bridge
(`src/ha_ircon.cc`): the device share (connection flag + attribute
cache), the write/update command encoder, the delete path, the one-shot
row scan, identifier parsing in `ha_ircon::open`, and the unsupported
index/positional operations.

Strings are modelled as Lean `String`s; C strings are assumed free of
interior NUL bytes, under which `strncmp(s, t, n) == 0` is equivalent to
the first `n` characters of `s` and `t` agreeing (`strncmpEq` below).
Transmitted socket bytes are modelled as the concatenation, in program
order, of the arguments of the `send` calls; `send` results are ignored
by the source and so do not appear. Socket-API outcomes (`socket`,
`connect`) are inputs of the model, chosen by the environment.
-/

namespace Ircon

/-- Modelled from the spec: the attribute-name macros live in
`ha_ircon.h`, which is not under `src/`; the spec fixes the recognized
names as `mode`, `temperature`, `power`, `angle` (case-sensitive). -/
def IRCON_COMMAND_MODE : String := "mode"

/-- Modelled from the spec: see `IRCON_COMMAND_MODE`. -/
def IRCON_COMMAND_TEMPERATURE : String := "temperature"

/-- Modelled from the spec: see `IRCON_COMMAND_MODE`. -/
def IRCON_COMMAND_POWER : String := "power"

/-- Modelled from the spec: see `IRCON_COMMAND_MODE`. -/
def IRCON_COMMAND_ANGLE : String := "angle"

/-- Modelled from the spec: the sentinel macro lives in `ha_ircon.h`
(not under `src/`); the spec fixes it to the literal `"unknown"`. -/
def IRCON_COMMAND_UNKNOWN : String := "unknown"

/-- MySQL result code for an unsupported operation (`my_base.h`,
external collaborator); the spec calls it `NotSupported`. -/
def HA_ERR_WRONG_COMMAND : Int := 131

/-- MySQL result code for end of scan (`my_base.h`, external
collaborator); the spec calls it `EndOfData`. -/
def HA_ERR_END_OF_FILE : Int := 137

/-- The four recognized device attributes. -/
inductive Attr where
  | mode
  | temperature
  | power
  | angle
deriving DecidableEq

/-- Name of each attribute, as compared against column names. -/
def attrName : Attr → String
  | .mode => IRCON_COMMAND_MODE
  | .temperature => IRCON_COMMAND_TEMPERATURE
  | .power => IRCON_COMMAND_POWER
  | .angle => IRCON_COMMAND_ANGLE

/-- `Ircon_share`: connection flag plus the four cached attribute
values (`socket_opened`, `state_mode`, `state_temperature`,
`state_power`, `state_angle` in `ha_ircon.h`/`ha_ircon.cc`). The raw
socket file descriptor carries no observable information beyond the
flag and is omitted. -/
structure Share where
  socket_opened : Bool
  state_mode : String
  state_temperature : String
  state_power : String
  state_angle : String
deriving DecidableEq

/-- Current cached value of an attribute. -/
def Share.get (s : Share) : Attr → String
  | .mode => s.state_mode
  | .temperature => s.state_temperature
  | .power => s.state_power
  | .angle => s.state_angle

/-- Overwrite the cached value of one attribute. -/
def Share.set (s : Share) : Attr → String → Share
  | .mode, v => { s with state_mode := v }
  | .temperature, v => { s with state_temperature := v }
  | .power, v => { s with state_power := v }
  | .angle, v => { s with state_angle := v }

/-- A table column descriptor: its name (`field_name`) and its declared
data length (`field_length`), the latter used as the comparison bound
in `rnd_next`. -/
structure Column where
  name : String
  field_length : Nat
deriving DecidableEq

/-- `strncmp(s, t, n) == 0` for NUL-free C strings: the first `n`
characters (or all, for the shorter string) agree. -/
def strncmpEq (s t : String) (n : Nat) : Bool :=
  s.toList.take n == t.toList.take n

/-- Column-name dispatch of `write_update_row` (lines 396/404/412/420):
each branch is `strncmp(field_name, ATTR, strlen(field_name)) == 0`,
i.e. the bound is the column name's own length, tried in the order
mode, temperature, power, angle. -/
def writeMatch (nm : String) : Option Attr :=
  if strncmpEq nm IRCON_COMMAND_MODE nm.length then some .mode
  else if strncmpEq nm IRCON_COMMAND_TEMPERATURE nm.length then some .temperature
  else if strncmpEq nm IRCON_COMMAND_POWER nm.length then some .power
  else if strncmpEq nm IRCON_COMMAND_ANGLE nm.length then some .angle
  else none

/-- Column-name dispatch of `rnd_next` (lines 663/665/667/669): each
branch is `strncmp(field_name, ATTR, field_length) == 0`, i.e. the
bound is the column's declared data length. -/
def readMatch (c : Column) : Option Attr :=
  if strncmpEq c.name IRCON_COMMAND_MODE c.field_length then some .mode
  else if strncmpEq c.name IRCON_COMMAND_TEMPERATURE c.field_length then some .temperature
  else if strncmpEq c.name IRCON_COMMAND_POWER c.field_length then some .power
  else if strncmpEq c.name IRCON_COMMAND_ANGLE c.field_length then some .angle
  else none

/-- `ha_ircon::write_update_row` (lines 389-437). A row is the ordered
list of the table's columns paired with the value `val_str` extracts
for each. For each column matched to an attribute: if the value is
non-empty the cache is overwritten with it, then `field_name`, `":"`,
the (now current) cached value, and `","` are sent; unmatched columns
are skipped. After the loop a single `"\n"` is sent and 0 returned.
Result: (new share, bytes sent, return code). -/
def write_update_row (s : Share) : List (Column × String) → Share × String × Int
  | [] => (s, "\n", 0)
  | (c, v) :: rest =>
    match writeMatch c.name with
    | some a =>
      let s1 := if v.length > 0 then s.set a v else s
      let r := write_update_row s1 rest
      (r.1, c.name ++ ":" ++ s1.get a ++ "," ++ r.2.1, r.2.2)
    | none => write_update_row s rest

/-- `ha_ircon::write_row` (lines 439-443): delegates to
`write_update_row`. -/
def write_row (s : Share) (buf : List (Column × String)) : Share × String × Int :=
  write_update_row s buf

/-- `ha_ircon::update_row` (lines 469-473): ignores the old row image
and delegates to `write_update_row`. -/
def update_row (s : Share) (old_data new_data : List (Column × String)) :
    Share × String × Int :=
  write_update_row s new_data

/-- `ha_ircon::delete_row` (lines 496-505): resets all four cached
attributes to the sentinel and sends the eight bytes `mode:-,\n`. -/
def delete_row (s : Share) : Share × String × Int :=
  ({ s with
      state_mode := IRCON_COMMAND_UNKNOWN
      state_temperature := IRCON_COMMAND_UNKNOWN
      state_power := IRCON_COMMAND_UNKNOWN
      state_angle := IRCON_COMMAND_UNKNOWN },
   "mode:-,\n", 0)

/-- Per-session state: the one-shot scan flag `next_is_eof`
(`ha_ircon.h`, used in lines 616-681). -/
structure Session where
  next_is_eof : Bool
deriving DecidableEq

/-- `ha_ircon::rnd_init` (lines 616-621): clears the exhaustion flag,
returns 0. -/
def rnd_init (ss : Session) : Session × Int :=
  ({ next_is_eof := false }, 0)

/-- Value stored into one column by `rnd_next` (lines 662-674): the
cached value of the matched attribute, or the sentinel when no
attribute matches. -/
def rowValue (s : Share) (c : Column) : String :=
  match readMatch c with
  | some a => s.get a
  | none => IRCON_COMMAND_UNKNOWN

/-- `ha_ircon::rnd_next` (lines 644-681): when the exhaustion flag is
set, return `HA_ERR_END_OF_FILE` and no row; otherwise fill every
column from the cache (sentinel for unmatched columns), set the flag,
and return the row with code 0. -/
def rnd_next (s : Share) (cols : List Column) (ss : Session) :
    Session × Int × Option (List String) :=
  if ss.next_is_eof then (ss, HA_ERR_END_OF_FILE, none)
  else ({ next_is_eof := true }, 0, some (cols.map (rowValue s)))

/-- Index of the first `':'` in a character list, if any. -/
def firstColonIdx : List Char → Option Nat
  | [] => none
  | c :: rest => if c = ':' then some 0 else (firstColonIdx rest).map (· + 1)

/-- C `isspace` on the characters `atoi` skips. -/
def isSpaceC (c : Char) : Bool :=
  c = ' ' || c = '\t' || c = '\n' || c = '\u000B' || c = '\u000C' || c = '\r'

/-- Numeric value of a list of decimal digits. -/
def digitsToNat (l : List Char) : Nat :=
  l.foldl (fun acc c => acc * 10 + (c.toNat - '0'.toNat)) 0

/-- Decimal digit test. -/
def isDigitC (c : Char) : Bool :=
  decide ('0' ≤ c) && decide (c ≤ '9')

/-- C `atoi`: skip whitespace, optional sign, value of the leading
digit run (0 when there are no digits). Overflow, undefined in C, is
not modelled; the inputs of interest are small. -/
def atoi (l : List Char) : Int :=
  let l1 := l.dropWhile isSpaceC
  match l1 with
  | '-' :: rest => -(digitsToNat (rest.takeWhile isDigitC) : Int)
  | '+' :: rest => (digitsToNat (rest.takeWhile isDigitC) : Int)
  | _ => (digitsToNat (l1.takeWhile isDigitC) : Int)

/-- Port selection of `ha_ircon::open` (lines 298-310): the identifier
is copied into a 32-byte buffer; the first `':'` within it (if any)
terminates the host part, and when that colon is not the last buffer
byte, `port = atoi(rest)`; a final `port == 0` check substitutes the
default port `dflt` (`IRCON_DEFAULT_PORT`, a constant of `ha_ircon.h`
not under `src/`, kept as a parameter). -/
def portOfIdentifier (dflt : Int) (name : String) : Int :=
  let buf := name.toList.take 32
  let port : Int :=
    match firstColonIdx buf with
    | none => 0
    | some i => if i < 31 then atoi (buf.drop (i + 1)) else 0
  if port = 0 then dflt else port

/-- The raw `atoi` outcome that governs the default-port decision: 0
when there is no colon in the 32-byte buffer or the colon is its last
byte, otherwise `atoi` of the text after the colon. -/
def rawPortOf (name : String) : Int :=
  let buf := name.toList.take 32
  match firstColonIdx buf with
  | none => 0
  | some i => if i < 31 then atoi (buf.drop (i + 1)) else 0

/-- Host part of the identifier as passed to `inet_addr`: the bytes of
the 32-byte buffer before the first colon. -/
def hostOfIdentifier (name : String) : String :=
  String.mk ((name.toList.take 32).takeWhile (fun c => c != ':'))

/-- `ha_ircon::open` (lines 281-325). `name` is the table name used as
the device identifier; `socket_ok` and `connect_ok` are the outcomes
the environment gives the `socket()` and `connect()` calls. When the
share is already connected, nothing happens. Otherwise: a failed
`socket()` returns -1 with the share untouched; else the identifier is
parsed, `connect()` is called — its result is discarded by the source —
the share is marked connected and all four cached attributes are reset
to the sentinel. Result: (new share, return code). -/
def ircon_open (s : Share) (name : String) (socket_ok connect_ok : Bool)
    (dflt : Int) : Share × Int :=
  if s.socket_opened then (s, 0)
  else if socket_ok = false then (s, -1)
  else
    ({ socket_opened := true
       state_mode := IRCON_COMMAND_UNKNOWN
       state_temperature := IRCON_COMMAND_UNKNOWN
       state_power := IRCON_COMMAND_UNKNOWN
       state_angle := IRCON_COMMAND_UNKNOWN },
     0)

/-- `ha_ircon::index_read_map` (lines 515-526): returns
`HA_ERR_WRONG_COMMAND`, touches nothing, sends nothing. Result:
(share, session, bytes sent, return code). -/
def index_read_map (s : Share) (ss : Session) : Share × Session × String × Int :=
  (s, ss, "", HA_ERR_WRONG_COMMAND)

/-- `ha_ircon::index_next` (lines 534-542): unsupported, no effect. -/
def index_next (s : Share) (ss : Session) : Share × Session × String × Int :=
  (s, ss, "", HA_ERR_WRONG_COMMAND)

/-- `ha_ircon::index_prev` (lines 550-558): unsupported, no effect. -/
def index_prev (s : Share) (ss : Session) : Share × Session × String × Int :=
  (s, ss, "", HA_ERR_WRONG_COMMAND)

/-- `ha_ircon::index_first` (lines 571-579): unsupported, no effect. -/
def index_first (s : Share) (ss : Session) : Share × Session × String × Int :=
  (s, ss, "", HA_ERR_WRONG_COMMAND)

/-- `ha_ircon::index_last` (lines 592-600): unsupported, no effect. -/
def index_last (s : Share) (ss : Session) : Share × Session × String × Int :=
  (s, ss, "", HA_ERR_WRONG_COMMAND)

/-- `ha_ircon::rnd_pos` (lines 725-734): positional re-fetch is
unsupported, no effect. -/
def rnd_pos (s : Share) (ss : Session) : Share × Session × String × Int :=
  (s, ss, "", HA_ERR_WRONG_COMMAND)

/-- `ha_ircon::delete_all_rows` (lines 818-822): unsupported, no
effect. -/
def delete_all_rows (s : Share) (ss : Session) : Share × Session × String × Int :=
  (s, ss, "", HA_ERR_WRONG_COMMAND)

/-- `ha_ircon::truncate` (lines 841-845): unsupported, no effect. -/
def truncate (s : Share) (ss : Session) : Share × Session × String × Int :=
  (s, ss, "", HA_ERR_WRONG_COMMAND)

/-- Highest buffer index written by the cache store of
`write_update_row` for a non-empty value `v`:
`strncpy(dest, v.ptr, v.length)` writes indices `0 .. v.length - 1` and
`dest[v.length] = 0` writes index `v.length`. -/
def storeMaxIndex (v : String) : Nat :=
  v.length

/-- The columns of the table of the end-to-end scenario: the four
recognized attributes, in table-column order, each with a data length
of 32 bytes. -/
def scenarioColumns : List Column :=
  [⟨"mode", 32⟩, ⟨"temperature", 32⟩, ⟨"power", 32⟩, ⟨"angle", 32⟩]

/-- The written row of the end-to-end scenario: `mode = "heat"`, the
other three columns empty. -/
def scenarioRow : List (Column × String) :=
  [(⟨"mode", 32⟩, "heat"), (⟨"temperature", 32⟩, ""),
   (⟨"power", 32⟩, ""), (⟨"angle", 32⟩, "")]

/-- The share after opening a fresh session on identifier
`"host:9000"` with both system calls succeeding. -/
def scenarioShare : Share :=
  (ircon_open ⟨false, "", "", "", ""⟩ "host:9000" true true 9105).1

/-- The comparison of `writeMatch` succeeds exactly when the column
name is a character-list prefix of the attribute name: the `strncmp`
bound is the column name's own length. -/
theorem strncmpEq_len_iff (nm t : String) :
    strncmpEq nm t nm.length = true ↔ ∃ u, t.toList = nm.toList ++ u := by
  unfold strncmpEq
  rw [beq_iff_eq]
  show nm.toList.take nm.toList.length = t.toList.take nm.toList.length ↔ _
  rw [List.take_length]
  generalize nm.toList = l
  generalize t.toList = m
  constructor
  · intro h
    refine ⟨m.drop l.length, ?_⟩
    nth_rewrite 1 [← List.take_append_drop l.length m]
    rw [← h]
  · rintro ⟨u, rfl⟩
    exact (List.take_left l u).symm

/-- A write-path match certifies that the column name is a prefix of
the matched attribute's name. -/
theorem writeMatch_some_imp (nm : String) (a : Attr) (h : writeMatch nm = some a) :
    ∃ u, (attrName a).toList = nm.toList ++ u := by
  unfold writeMatch at h
  by_cases h1 : strncmpEq nm IRCON_COMMAND_MODE nm.length = true
  · rw [if_pos h1] at h
    injection h with h0
    subst h0
    exact (strncmpEq_len_iff nm IRCON_COMMAND_MODE).mp h1
  · rw [if_neg h1] at h
    by_cases h2 : strncmpEq nm IRCON_COMMAND_TEMPERATURE nm.length = true
    · rw [if_pos h2] at h
      injection h with h0
      subst h0
      exact (strncmpEq_len_iff nm IRCON_COMMAND_TEMPERATURE).mp h2
    · rw [if_neg h2] at h
      by_cases h3 : strncmpEq nm IRCON_COMMAND_POWER nm.length = true
      · rw [if_pos h3] at h
        injection h with h0
        subst h0
        exact (strncmpEq_len_iff nm IRCON_COMMAND_POWER).mp h3
      · rw [if_neg h3] at h
        by_cases h4 : strncmpEq nm IRCON_COMMAND_ANGLE nm.length = true
        · rw [if_pos h4] at h
          injection h with h0
          subst h0
          exact (strncmpEq_len_iff nm IRCON_COMMAND_ANGLE).mp h4
        · rw [if_neg h4] at h
          exact Option.noConfusion h

/-- When `writeMatch` fails, all four bounded comparisons are false. -/
theorem writeMatch_none_conds (nm : String) (h : writeMatch nm = none) :
    strncmpEq nm IRCON_COMMAND_MODE nm.length = false ∧
    strncmpEq nm IRCON_COMMAND_TEMPERATURE nm.length = false ∧
    strncmpEq nm IRCON_COMMAND_POWER nm.length = false ∧
    strncmpEq nm IRCON_COMMAND_ANGLE nm.length = false := by
  unfold writeMatch at h
  by_cases h1 : strncmpEq nm IRCON_COMMAND_MODE nm.length = true
  · rw [if_pos h1] at h
    exact Option.noConfusion h
  · rw [if_neg h1] at h
    by_cases h2 : strncmpEq nm IRCON_COMMAND_TEMPERATURE nm.length = true
    · rw [if_pos h2] at h
      exact Option.noConfusion h
    · rw [if_neg h2] at h
      by_cases h3 : strncmpEq nm IRCON_COMMAND_POWER nm.length = true
      · rw [if_pos h3] at h
        exact Option.noConfusion h
      · rw [if_neg h3] at h
        by_cases h4 : strncmpEq nm IRCON_COMMAND_ANGLE nm.length = true
        · rw [if_pos h4] at h
          exact Option.noConfusion h
        · exact ⟨Bool.eq_false_iff.mpr h1, Bool.eq_false_iff.mpr h2,
                 Bool.eq_false_iff.mpr h3, Bool.eq_false_iff.mpr h4⟩

/-- When `writeMatch` fails, the column name is a prefix of none of the
four attribute names. -/
theorem writeMatch_none_imp (nm : String) (h : writeMatch nm = none) (a : Attr) :
    ¬ ∃ u, (attrName a).toList = nm.toList ++ u := by
  intro hex
  have h1 : strncmpEq nm (attrName a) nm.length = true :=
    (strncmpEq_len_iff nm (attrName a)).mpr hex
  have hc := writeMatch_none_conds nm h
  cases a
  · rw [attrName] at h1
    rw [hc.1] at h1
    exact Bool.noConfusion h1
  · rw [attrName] at h1
    rw [hc.2.1] at h1
    exact Bool.noConfusion h1
  · rw [attrName] at h1
    rw [hc.2.2.1] at h1
    exact Bool.noConfusion h1
  · rw [attrName] at h1
    rw [hc.2.2.2] at h1
    exact Bool.noConfusion h1

/-- Claim C1 (counterexample): in the end-to-end scenario — open on
`"host:9000"`, then a write with `mode = "heat"` and the other three
recognized columns empty — the bytes transmitted for the write are not
`mode:heat,\n`: the three recognized columns with empty values also
emit tokens, carrying the cached sentinel. -/
theorem end_to_end_wire_bytes_cex :
    (write_update_row scenarioShare scenarioRow).2.1 ≠ "mode:heat,\n" := by
  decide

/-- Claim C1 (amended): opening a session on `"host:9000"` connects
(host `"host"`, port 9000), the write of `mode = "heat"` with the other
three columns empty caches `heat` for mode and leaves the other
attributes at the sentinel, a scan returns the row
`["heat", "unknown", "unknown", "unknown"]` and then `EndOfData`; the
bytes transmitted for the write are
`mode:heat,temperature:unknown,power:unknown,angle:unknown,\n` — every
recognized column present in the row emits a token, the empty ones
re-emitting the cached sentinel. -/
theorem end_to_end_write_scan :
    scenarioShare.socket_opened = true ∧
    hostOfIdentifier "host:9000" = "host" ∧
    portOfIdentifier 9105 "host:9000" = 9000 ∧
    (write_update_row scenarioShare scenarioRow).1 =
      ⟨true, "heat", "unknown", "unknown", "unknown"⟩ ∧
    (write_update_row scenarioShare scenarioRow).2.1 =
      "mode:heat,temperature:unknown,power:unknown,angle:unknown,\n" ∧
    (write_update_row scenarioShare scenarioRow).2.2 = 0 ∧
    rnd_next (write_update_row scenarioShare scenarioRow).1 scenarioColumns
        ((rnd_init ⟨true⟩).1) =
      (⟨true⟩, 0, some ["heat", "unknown", "unknown", "unknown"]) ∧
    (rnd_next (write_update_row scenarioShare scenarioRow).1 scenarioColumns
        ⟨true⟩).2.1 = HA_ERR_END_OF_FILE := by
  decide

/-- Claim C2 (counterexample): on a fresh share, when `socket()`
succeeds but `connect()` fails, `open` still returns 0 (not
`OpenFailed`) and marks the share connected: the source never checks
the result of `connect`. -/
theorem open_connect_failure_cex :
    (ircon_open ⟨false, "unknown", "unknown", "unknown", "unknown"⟩
        "host:9000" true false 9105).2 = 0 ∧
    (ircon_open ⟨false, "unknown", "unknown", "unknown", "unknown"⟩
        "host:9000" true false 9105).1.socket_opened = true := by
  decide

/-- Claim C2 (amended): for every open call on a share with no open
connection, if *socket creation* fails, open returns -1 (`OpenFailed`)
with the share left exactly as it was — in particular still marked
disconnected — so a subsequent open on the same share attempts the
connection again from scratch (and then marks it connected, returning
0, whatever `connect` reports). A failure of the connect attempt itself
is not detected. -/
theorem open_socket_failure_unconnected (s : Share) (name : String)
    (c1 : Bool) (dflt : Int) (h : s.socket_opened = false) :
    ircon_open s name false c1 dflt = (s, -1) ∧
    (ircon_open s name false c1 dflt).1.socket_opened = false ∧
    (∀ c2 : Bool,
      (ircon_open (ircon_open s name false c1 dflt).1 name true c2 dflt).1.socket_opened
          = true ∧
      (ircon_open (ircon_open s name false c1 dflt).1 name true c2 dflt).2 = 0) := by
  have e : ircon_open s name false c1 dflt = (s, -1) := by
    simp [ircon_open, h]
  refine ⟨e, ?_, ?_⟩
  · rw [e]
    exact h
  · intro c2
    rw [e]
    constructor
    · simp [ircon_open, h]
    · simp [ircon_open, h]

/-- Witness for `open_socket_failure_unconnected` at a concrete
share. -/
theorem open_socket_failure_unconnected_witness :
    ircon_open ⟨false, "a", "b", "c", "d"⟩ "host" false true 9105 =
      (⟨false, "a", "b", "c", "d"⟩, -1) :=
  (open_socket_failure_unconnected ⟨false, "a", "b", "c", "d"⟩ "host" true 9105 rfl).1

/-- Claim C3 (counterexample): a column named `"mo"` — not exactly any
of the four recognized names — is nevertheless matched to `mode` by the
write path: writing it with value `"heat"` overwrites the cached mode
and transmits `mo:heat,`, because the `strncmp` bound is the column
name's own length. -/
theorem matching_not_exact_cex :
    ("mo" ≠ IRCON_COMMAND_MODE ∧ "mo" ≠ IRCON_COMMAND_TEMPERATURE ∧
     "mo" ≠ IRCON_COMMAND_POWER ∧ "mo" ≠ IRCON_COMMAND_ANGLE) ∧
    (write_update_row ⟨true, "unknown", "unknown", "unknown", "unknown"⟩
        [(⟨"mo", 2⟩, "heat")]).1.state_mode = "heat" ∧
    (write_update_row ⟨true, "unknown", "unknown", "unknown", "unknown"⟩
        [(⟨"mo", 2⟩, "heat")]).2.1 = "mo:heat,\n" := by
  decide

/-- Claim C3 (amended): column matching is case-sensitive but bounded,
not exact. In the write path a column is matched (in the order mode,
temperature, power, angle) exactly when its name is a prefix of an
attribute name — every column named exactly one of the four matches
that attribute, and a column whose name is a prefix of none of them is
skipped entirely: no cache change and nothing sent. In the read path
the comparison bound is the column's data length: a column that matches
no attribute under that bound is filled with the sentinel `"unknown"`,
and a matched column is filled with that attribute's cached value. -/
theorem matching_bounded_by_name_length :
    (∀ a : Attr, writeMatch (attrName a) = some a) ∧
    (∀ (nm : String) (a : Attr), writeMatch nm = some a →
        ∃ u, (attrName a).toList = nm.toList ++ u) ∧
    (∀ nm : String, writeMatch nm = none →
        ∀ a : Attr, ¬ ∃ u, (attrName a).toList = nm.toList ++ u) ∧
    (∀ (s : Share) (c : Column) (v : String) (rest : List (Column × String)),
        writeMatch c.name = none →
        write_update_row s ((c, v) :: rest) = write_update_row s rest) ∧
    (∀ (s : Share) (c : Column), readMatch c = none →
        rowValue s c = IRCON_COMMAND_UNKNOWN) ∧
    (∀ (s : Share) (c : Column) (a : Attr), readMatch c = some a →
        rowValue s c = s.get a) := by
  refine ⟨?_, writeMatch_some_imp, writeMatch_none_imp, ?_, ?_, ?_⟩
  · intro a
    cases a <;> decide
  · intro s c v rest h
    simp [write_update_row, h]
  · intro s c h
    simp [rowValue, h]
  · intro s c a h
    simp [rowValue, h]

/-- Witness for `matching_bounded_by_name_length` at concrete
columns. -/
theorem matching_bounded_by_name_length_witness :
    writeMatch (attrName .temperature) = some .temperature ∧
    write_update_row ⟨true, "unknown", "unknown", "unknown", "unknown"⟩
        [(⟨"xyz", 32⟩, "v")] =
      write_update_row ⟨true, "unknown", "unknown", "unknown", "unknown"⟩ [] ∧
    rowValue ⟨true, "unknown", "unknown", "unknown", "unknown"⟩ ⟨"zzz", 32⟩ =
      IRCON_COMMAND_UNKNOWN :=
  ⟨matching_bounded_by_name_length.1 .temperature,
   matching_bounded_by_name_length.2.2.2.1
     ⟨true, "unknown", "unknown", "unknown", "unknown"⟩ ⟨"xyz", 32⟩ "v" []
     (by decide),
   matching_bounded_by_name_length.2.2.2.2.1
     ⟨true, "unknown", "unknown", "unknown", "unknown"⟩ ⟨"zzz", 32⟩
     (by decide)⟩

/-- Claim C4: the cache store of `write_update_row` does not truncate:
for every bound `maxLen` and every non-empty value longer than it, the
value is stored whole (its length exceeds the bound), and the highest
buffer index written by the store — `strncpy` copies `v.length` bytes
and the terminator lands at index `v.length` — also exceeds the bound.
With a fixed-size attribute buffer this is an out-of-bounds write, the
divergence of the code from the claim. -/
theorem write_store_unbounded (maxLen : Nat) (s : Share) (v : String)
    (h : maxLen < v.length) :
    (write_update_row s [(⟨"mode", 4⟩, v)]).1.state_mode = v ∧
    maxLen < (write_update_row s [(⟨"mode", 4⟩, v)]).1.state_mode.length ∧
    maxLen < storeMaxIndex v := by
  have hv : 0 < v.length := Nat.lt_of_le_of_lt (Nat.zero_le _) h
  have hm : writeMatch "mode" = some Attr.mode := by decide
  have hst : (write_update_row s [(⟨"mode", 4⟩, v)]).1.state_mode = v := by
    simp [write_update_row, hm, hv, Share.set]
  refine ⟨hst, ?_, h⟩
  rw [hst]
  exact h

/-- Witness for `write_store_unbounded`: an 8-byte value against a
maximum attribute length of 7 is stored in full. -/
theorem write_store_unbounded_witness :
    7 < ("01234567" : String).length ∧
    (write_update_row ⟨true, "unknown", "unknown", "unknown", "unknown"⟩
        [(⟨"mode", 4⟩, "01234567")]).1.state_mode = "01234567" ∧
    7 < storeMaxIndex "01234567" :=
  ⟨by decide,
   (write_store_unbounded 7 ⟨true, "unknown", "unknown", "unknown", "unknown"⟩
      "01234567" (by decide)).1,
   (write_store_unbounded 7 ⟨true, "unknown", "unknown", "unknown", "unknown"⟩
      "01234567" (by decide)).2.2⟩

/-- Claim C5: a write of a recognized column with a zero-length value
leaves the whole share (in particular that attribute's cached value)
unchanged at that step, yet the transmitted command still contains the
`name:value,` token for that column, carrying the prior cached value;
the rest of the row is processed from the unchanged share, and the
return code is unaffected. -/
theorem empty_value_keeps_cache_still_sends (s : Share) (c : Column)
    (a : Attr) (v : String) (rest : List (Column × String))
    (hm : writeMatch c.name = some a) (hv : v.length = 0) :
    (write_update_row s ((c, v) :: rest)).1 = (write_update_row s rest).1 ∧
    (write_update_row s ((c, v) :: rest)).2.1 =
      c.name ++ ":" ++ s.get a ++ "," ++ (write_update_row s rest).2.1 ∧
    (write_update_row s ((c, v) :: rest)).2.2 =
      (write_update_row s rest).2.2 := by
  refine ⟨?_, ?_, ?_⟩ <;> simp [write_update_row, hm, hv]

/-- Witness for `empty_value_keeps_cache_still_sends`: with `"heat"`
cached for mode, writing an empty `mode` column changes nothing but
still transmits `mode:heat,`. -/
theorem empty_value_keeps_cache_still_sends_witness :
    (write_update_row ⟨true, "heat", "unknown", "unknown", "unknown"⟩
        [(⟨"mode", 32⟩, "")]).1 =
      (write_update_row ⟨true, "heat", "unknown", "unknown", "unknown"⟩ []).1 ∧
    (write_update_row ⟨true, "heat", "unknown", "unknown", "unknown"⟩
        [(⟨"mode", 32⟩, "")]).2.1 =
      "mode" ++ ":" ++
        Share.get ⟨true, "heat", "unknown", "unknown", "unknown"⟩ Attr.mode ++
        "," ++
        (write_update_row ⟨true, "heat", "unknown", "unknown", "unknown"⟩ []).2.1 ∧
    (write_update_row ⟨true, "heat", "unknown", "unknown", "unknown"⟩
        [(⟨"mode", 32⟩, "")]).2.2 =
      (write_update_row ⟨true, "heat", "unknown", "unknown", "unknown"⟩ []).2.2 :=
  empty_value_keeps_cache_still_sends
    ⟨true, "heat", "unknown", "unknown", "unknown"⟩ ⟨"mode", 32⟩ Attr.mode ""
    [] (by decide) (by decide)

/-- Claim C6: from every prior cache state, `delete_row` sets all four
cached attributes to the sentinel `"unknown"`, transmits exactly the
eight bytes `mode:-,\n` — no per-attribute diff tokens — and returns
0. -/
theorem delete_row_resets_and_sends_literal (s : Share) :
    delete_row s =
      ({ s with
          state_mode := IRCON_COMMAND_UNKNOWN
          state_temperature := IRCON_COMMAND_UNKNOWN
          state_power := IRCON_COMMAND_UNKNOWN
          state_angle := IRCON_COMMAND_UNKNOWN },
       "mode:-,\n", 0) ∧
    ("mode:-,\n" : String).length = 8 := by
  exact ⟨rfl, by decide⟩

/-- Claim C7: in every session state, `rnd_init` re-arms the scan: the
first `rnd_next` after it returns code 0 with the populated row, the
immediately following `rnd_next` returns `HA_ERR_END_OF_FILE` with no
row, and a further `rnd_init` re-arms again for exactly one more row.
Because `rnd_init` produces the same session state from any prior one,
this holds across arbitrarily many repeated scan cycles. -/
theorem scan_yields_one_row_per_cycle (s : Share) (cols : List Column)
    (ss : Session) :
    rnd_init ss = (⟨false⟩, 0) ∧
    rnd_next s cols (rnd_init ss).1 =
      (⟨true⟩, 0, some (cols.map (rowValue s))) ∧
    rnd_next s cols (rnd_next s cols (rnd_init ss).1).1 =
      (⟨true⟩, HA_ERR_END_OF_FILE, none) ∧
    rnd_next s cols
        (rnd_init (rnd_next s cols (rnd_next s cols (rnd_init ss).1).1).1).1 =
      (⟨true⟩, 0, some (cols.map (rowValue s))) ∧
    rnd_next s cols ⟨true⟩ = (⟨true⟩, HA_ERR_END_OF_FILE, none) := by
  exact ⟨rfl, rfl, rfl, rfl, rfl⟩

/-- Claim C9: every index-read, index-next, index-prev, index-first,
index-last and positional re-fetch call, as well as truncate and bulk
delete-all, returns `HA_ERR_WRONG_COMMAND` in every state, leaving the
share and session untouched and sending no bytes. -/
theorem unsupported_ops_no_side_effects (s : Share) (ss : Session) :
    index_read_map s ss = (s, ss, "", HA_ERR_WRONG_COMMAND) ∧
    index_next s ss = (s, ss, "", HA_ERR_WRONG_COMMAND) ∧
    index_prev s ss = (s, ss, "", HA_ERR_WRONG_COMMAND) ∧
    index_first s ss = (s, ss, "", HA_ERR_WRONG_COMMAND) ∧
    index_last s ss = (s, ss, "", HA_ERR_WRONG_COMMAND) ∧
    rnd_pos s ss = (s, ss, "", HA_ERR_WRONG_COMMAND) ∧
    delete_all_rows s ss = (s, ss, "", HA_ERR_WRONG_COMMAND) ∧
    truncate s ss = (s, ss, "", HA_ERR_WRONG_COMMAND) := by
  exact ⟨rfl, rfl, rfl, rfl, rfl, rfl, rfl, rfl⟩

/-- Claim C10: `update_row` ignores the old row image and delegates to
the same routine as `write_row`: for every share state, every old row
and every new row, both produce the identical resulting share,
transmitted bytes and return code. -/
theorem update_row_eq_write_row (s : Share)
    (old_data new_data : List (Column × String)) :
    update_row s old_data new_data = write_row s new_data := rfl

/-- Claim C8 (counterexample): for the identifier `"h:-1"` the port
segment does not denote a positive integer, yet the default port is not
used: `atoi` yields -1, the `port == 0` check does not fire, and -1 is
used as the port (shown against two candidate defaults). -/
theorem port_negative_not_default_cex :
    portOfIdentifier 9105 "h:-1" = -1 ∧ (-1 : Int) ≠ 9105 ∧
    portOfIdentifier 0 "h:-1" = -1 := by
  decide

/-- Claim C8 (amended): identifier parsing splits on the first colon of
the 32-byte buffer; the default port is substituted exactly when the
raw parse yields zero — the segment is absent, the colon is the last
buffer byte, or `atoi` of the segment returns 0 (a zero or non-numeric
segment). A nonzero `atoi` result, including a negative one, is used
as the port unchanged. -/
theorem port_default_on_zero_atoi (dflt : Int) (name : String) :
    (portOfIdentifier dflt name =
      if rawPortOf name = 0 then dflt else rawPortOf name) ∧
    portOfIdentifier dflt "host" = dflt ∧
    portOfIdentifier dflt "host:0" = dflt ∧
    portOfIdentifier dflt "host:x" = dflt ∧
    portOfIdentifier dflt "host:9000" = 9000 ∧
    portOfIdentifier dflt "host:-1" = -1 := by
  exact ⟨rfl, rfl, rfl, rfl, rfl, rfl⟩

end Ircon
